import Mathlib

/-!
Verification of the input arbitration and playback-session logic of
`peasyplayer.py` (class `PeasyPlayer`), via a shallow embedding.

Timestamps and durations (Python floats from `time.time()`, and the
configured delays, which are integer-valued in the source) are modelled as
`Int` seconds.  Python's `defaultdict(float)` keyed by a channel name is
modelled as an association list with default value `0` (Python's `float()`
is `0.0`).  Logging calls are I/O side effects and are modelled only where
a claim mentions them (as a boolean "warned" output).
-/

/- ===================== Definitions ===================== -/

/-- The `last_input_times` dictionary: `defaultdict(float)` keyed by the
input channel identifier (src line 36).  Updates prepend; lookups take the
most recent binding; a missing key yields the default `0`. -/
abbrev TimesMap := List (String × Int)

/-- Dictionary lookup with the `defaultdict(float)` default of `0`
(`self.last_input_times[input_id]`). -/
def lookupTime (m : TimesMap) (k : String) : Int :=
  match m with
  | [] => 0
  | (k2, v) :: t => if k2 = k then v else lookupTime t k

/-- Dictionary assignment `self.last_input_times[input_id] = now`. -/
def setTime (m : TimesMap) (k : String) (v : Int) : TimesMap :=
  (k, v) :: m

/-- Whether a channel already has a recorded entry (used to state "no prior
trigger was recorded for this channel"). -/
def hasChannel (m : TimesMap) (k : String) : Bool :=
  match m with
  | [] => false
  | (k2, _) :: t => k2 == k || hasChannel t k

/-- `PeasyPlayer.input_delay` (src lines 215-226), with the call to
`time.time()` made explicit as the parameter `now` and the invoked callback
abstracted to the returned `Bool` (`true`: the gate opened and the callback
ran; `false`: the input was suppressed and the Python function fell through,
returning `None`).  The source test is
`self.last_input_times[input_id] + delay < time.time()`. -/
def input_delay (times : TimesMap) (input_id : String) (delay now : Int) :
    Bool × TimesMap :=
  if lookupTime times input_id + delay < now then
    (true, setTime times input_id now)
  else
    (false, times)

/-- The two playback commands the play/pause button can issue:
`self.list_player.stop` (wired to `when_held`) and `self.list_player.pause`
(wired to `when_released`), src lines 212-213. -/
inductive ControlAction where
  | stop
  | pause
deriving DecidableEq

/-- The state touched by the play/pause button handlers: the shared
`last_input_times` dictionary and the `play_pause_was_held` flag
(src line 37). -/
structure HoldState where
  times : TimesMap
  play_pause_was_held : Bool
deriving DecidableEq

/-- `PeasyPlayer.play_pause_held` (src lines 228-230) as wired at src line
212: it sets `play_pause_was_held = True` and then calls
`input_delay(self.list_player.stop, 'control', 1)`.  The first component is
the action fired (if any). -/
def play_pause_held (s : HoldState) (now : Int) : Option ControlAction × HoldState :=
  ((if (input_delay s.times "control" 1 now).1 then some ControlAction.stop else none),
   { times := (input_delay s.times "control" 1 now).2, play_pause_was_held := true })

/-- `PeasyPlayer.play_pause_released` (src lines 232-237) as wired at src
line 213: if the flag is set the input is ignored (and the flag cleared),
otherwise it calls `input_delay(self.list_player.pause, 'control', 1)`. -/
def play_pause_released (s : HoldState) (now : Int) : Option ControlAction × HoldState :=
  if s.play_pause_was_held then
    (none, { times := s.times, play_pause_was_held := false })
  else
    ((if (input_delay s.times "control" 1 now).1 then some ControlAction.pause else none),
     { times := (input_delay s.times "control" 1 now).2,
       play_pause_was_held := s.play_pause_was_held })

/-- The session state touched by the inactivity-timeout check in
`PeasyPlayer.start`: `last_action_time`, the engine's media list (queue)
and the engine's playback mode (`1` = loop, `0` = no loop). -/
structure SessionState where
  last_action_time : Int
  media_list : List String
  playback_mode : Int
deriving DecidableEq

/-- The inactivity-timeout check at the top of each iteration of
`PeasyPlayer.start` (src lines 51-57).  `inactive_timeout` is in minutes
(source value 300); the source test is
`self.last_action_time + self.inactive_timeout*60 < tick_start`.  On firing
it sets an empty media list, playback mode `0`, and
`last_action_time = tick_start`; otherwise the state is untouched. -/
def inactivity_check (s : SessionState) (inactive_timeout tick_start : Int) :
    SessionState :=
  if s.last_action_time + inactive_timeout * 60 < tick_start then
    { last_action_time := tick_start, media_list := [], playback_mode := 0 }
  else s

/-- Whether the first list is an initial segment of the second
(character-by-character). -/
def charsStartWith : List Char → List Char → Bool
  | [], _ => true
  | _ :: _, [] => false
  | a :: as, b :: bs => a == b && charsStartWith as bs

/-- Whether `needle` occurs as a contiguous sublist of `haystack`. -/
def charsContain (needle haystack : List Char) : Bool :=
  charsStartWith needle haystack ||
    match haystack with
    | [] => false
    | _ :: t => charsContain needle t

/-- Python's `needle in haystack` on strings: case-sensitive substring
containment. -/
def py_str_in (needle haystack : String) : Bool :=
  charsContain needle.data haystack.data

/-- `PeasyPlayer.movie_formats` (src line 26). -/
def movie_formats : List String :=
  [".mp4", ".mov", ".avi", ".mkv", ".m4v", ".mp3", ".wav"]

/-- `PeasyPlayer.is_movie_format` (src lines 174-181): returns `True` as
soon as some format marker occurs in the file name (Python `_format in
file`, a case-sensitive substring test), else `False`. -/
def is_movie_format (file : String) : Bool :=
  movie_formats.any (fun f => py_str_in f file)

/-- Whether `s` starts with `p` (Python `s.startswith(p)`). -/
def str_starts (s p : String) : Bool := charsStartWith p.data s.data

/-- Whether `s` ends with `p` (Python `s.endswith(p)`). -/
def str_ends (s p : String) : Bool :=
  charsStartWith p.data.reverse s.data.reverse

/-- Python `os.path.join(path, m)` restricted to the POSIX cases arising
here: an absolute `m` replaces `path`; otherwise a `/` separator is
inserted unless `path` already ends with one or is empty. -/
def os_path_join (path m : String) : String :=
  if str_starts m "/" then m
  else if path = "" || str_ends path "/" then path ++ m
  else path ++ "/" ++ m

/-- The two ways `os.listdir` fails on a directory in this design:
`FileNotFoundError` (the directory is missing) and `PermissionError` (the
directory exists but is unreadable). -/
inductive OsError where
  | fileNotFound
  | permissionDenied
deriving DecidableEq

/-- `PeasyPlayer.create_media_list` (src lines 96-120).  `listing` is the
outcome of `os.listdir(path)`.  The `try` block catches exactly
`FileNotFoundError` (logging a warning and returning the still-empty media
list); any other exception propagates to the caller.  On success the
entries are filtered by `is_movie_format`, joined onto `path`, and shuffled
(via the random permutation `perm` actually drawn) when `shuffle` is set.
The returned playlist is the list of media paths added. -/
def create_media_list (path : String) (listing : Except OsError (List String))
    (shuffle : Bool) (perm : List String → List String) :
    Except OsError (List String) :=
  match listing with
  | Except.error OsError.fileNotFound => Except.ok []
  | Except.error e => Except.error e
  | Except.ok entries =>
    let movies := (entries.filter fun x => is_movie_format x).map
      (fun m => os_path_join path m)
    Except.ok (if shuffle then perm movies else movies)

/-- The channel identifier and cooldown (seconds) that
`PeasyPlayer.set_input_listeners` (src lines 183-213) wires to each input
source, plus the RFID path of `start` (src line 81): the six movie buttons
all share channel `"movie"` with `movie_delay = 3`; the fast-forward,
rewind and play/pause buttons share channel `"control"` with
`control_delay = 1`; the RFID reader uses channel `"rfid"` with delay 1. -/
def input_channel : String → Option (String × Int)
  | "b1" => some ("movie", 3)
  | "b2" => some ("movie", 3)
  | "b3" => some ("movie", 3)
  | "b4" => some ("movie", 3)
  | "b5" => some ("movie", 3)
  | "b6" => some ("movie", 3)
  | "fast_forward" => some ("control", 1)
  | "rewind" => some ("control", 1)
  | "pause" => some ("control", 1)
  | "rfid" => some ("rfid", 1)
  | _ => none

/-- A trigger on a named input source: it runs `input_delay` on the channel
`set_input_listeners` assigned to that source. -/
def press_button (times : TimesMap) (button : String) (now : Int) :
    Bool × TimesMap :=
  match input_channel button with
  | some (id, delay) => input_delay times id delay now
  | none => (false, times)

/-- The Python exception the RFID `try` block of `start` catches
(src line 82): `TypeError`. -/
inductive PyError where
  | typeError
deriving DecidableEq

/-- Modelled from the spec: `rfidpeasyplayer.scan_card` (module
`rfidpeasyplayer` is part of this repository but not under `src/`).  The
spec's RFID driver contract is `poll() -> (scanned, payload)`, called once
per tick, and its hardware-read glitch surfaces as the `TypeError` that
`start` catches at src line 82; we model the call outcome as either the
returned pair or that exception.

With that, this is the RFID section of one iteration of `start` (src
lines 74-83).  The result is `Except.error` only if an exception escapes
the `except TypeError` handler; otherwise `.ok (folderFired, times,
warned)` where `folderFired` is the (stripped) folder name passed through
the debouncer gate when it fired, `times` the resulting dictionary, and
`warned` whether the warning was logged. -/
def rfid_tick (scan : Except PyError (Bool × String)) (times : TimesMap)
    (now : Int) : Except PyError (Option String × TimesMap × Bool) :=
  match scan with
  | Except.error PyError.typeError => Except.ok (none, times, true)
  | Except.ok (scanned, folder) =>
    if scanned then
      Except.ok ((if (input_delay times "rfid" 1 now).1 then some folder.trim else none),
        (input_delay times "rfid" 1 now).2, false)
    else
      Except.ok (none, times, false)

/-- The playback-engine position state used by `fast_forward` and `rewind`:
`get_time`/`set_time` of the VLC media player, in milliseconds. -/
structure MediaPlayer where
  position_ms : Int
deriving DecidableEq

/-- `self.list_player_media_player.get_time()`. -/
def get_time (p : MediaPlayer) : Int := p.position_ms

/-- `self.list_player_media_player.set_time(ms)`: no clamping at this
layer. -/
def set_time (_p : MediaPlayer) (ms : Int) : MediaPlayer := { position_ms := ms }

/-- `PeasyPlayer.fast_forward` (src lines 162-166): reads the current
position, adds `seconds * 1000` milliseconds, and seeks. -/
def fast_forward (p : MediaPlayer) (seconds : Int) : MediaPlayer :=
  set_time p (get_time p + seconds * 1000)

/-- `PeasyPlayer.rewind` (src lines 168-172): reads the current position,
subtracts `seconds * 1000` milliseconds, and seeks. -/
def rewind (p : MediaPlayer) (seconds : Int) : MediaPlayer :=
  set_time p (get_time p - seconds * 1000)

/- ===================== Helper lemmas ===================== -/

theorem lookupTime_setTime_self (m : TimesMap) (k : String) (v : Int) :
    lookupTime (setTime m k v) k = v := by
  simp [setTime, lookupTime]

theorem lookupTime_setTime_other (m : TimesMap) (k c : String) (v : Int)
    (h : k ≠ c) : lookupTime (setTime m k v) c = lookupTime m c := by
  simp [setTime, lookupTime, h]

theorem input_delay_pos (times : TimesMap) (id : String) (delay now : Int)
    (h : lookupTime times id + delay < now) :
    input_delay times id delay now = (true, setTime times id now) := by
  simp [input_delay, h]

theorem input_delay_neg (times : TimesMap) (id : String) (delay now : Int)
    (h : ¬ lookupTime times id + delay < now) :
    input_delay times id delay now = (false, times) := by
  simp [input_delay, h]

theorem lookupTime_default_of_fresh (m : TimesMap) (k : String)
    (h : hasChannel m k = false) : lookupTime m k = 0 := by
  induction m with
  | nil => rfl
  | cons p t ih =>
    obtain ⟨k2, v⟩ := p
    simp only [hasChannel, Bool.or_eq_false_iff, beq_eq_false_iff_ne] at h
    simp [lookupTime, h.1, ih h.2]

/- ===================== Claim theorems ===================== -/

/-- C1 (counterexample): with `lastTriggerTimestamp = 97`, `delay = 3` and
`now = 100` we have `now - lastTriggerTimestamp = 3 ≥ cooldownSeconds`, so
the claim says the action fires and the timestamp is updated; `input_delay`
instead suppresses the input and leaves the dictionary unchanged, because
its test `last + delay < now` is strict. -/
theorem input_delay_exact_cooldown_suppresses :
    (100 : Int) - lookupTime [("movie", 97)] "movie" ≥ 3
    ∧ (input_delay [("movie", 97)] "movie" 3 100).1 = false
    ∧ (input_delay [("movie", 97)] "movie" 3 100).2 = [("movie", 97)] := by
  decide

/-- C1 (amended): the debouncer fires the action and updates the channel's
timestamp to `now`, returning true, exactly when
`now - lastTriggerTimestamp > cooldownSeconds` (strictly greater, not `≥`);
otherwise it returns false and leaves the dictionary unchanged.
Consequently, after a fired trigger at `now`, a second trigger at `t2`
within `cooldownSeconds` (i.e. `t2 - now ≤ delay`, which includes a gap of
exactly `cooldownSeconds`) is suppressed, and a second trigger strictly
more than `cooldownSeconds` later fires. -/
theorem input_delay_strict_gate (times : TimesMap) (id : String)
    (delay now t2 : Int) :
    (((input_delay times id delay now).1 = true) ↔
      delay < now - lookupTime times id)
    ∧ ((input_delay times id delay now).1 = true →
      lookupTime (input_delay times id delay now).2 id = now)
    ∧ ((input_delay times id delay now).1 = false →
      (input_delay times id delay now).2 = times)
    ∧ (delay < now - lookupTime times id → t2 - now ≤ delay →
      (input_delay (input_delay times id delay now).2 id delay t2).1 = false)
    ∧ (delay < now - lookupTime times id → delay < t2 - now →
      (input_delay (input_delay times id delay now).2 id delay t2).1 = true) := by
  by_cases h : lookupTime times id + delay < now
  · rw [input_delay_pos times id delay now h]
    refine ⟨by simpa using by omega, fun _ => lookupTime_setTime_self times id now,
      fun hc => by simp at hc, fun h1 h2 => ?_, fun h1 h2 => ?_⟩
    · rw [input_delay_neg _ _ _ _ (by rw [lookupTime_setTime_self]; omega)]
    · rw [input_delay_pos _ _ _ _ (by rw [lookupTime_setTime_self]; omega)]
  · rw [input_delay_neg times id delay now h]
    refine ⟨by simpa using by omega, fun hc => by simp at hc, fun _ => rfl,
      fun h1 _ => absurd h1 (by omega), fun h1 _ => absurd h1 (by omega)⟩

/-- C1 (witness): on a fresh dictionary, channel `"movie"` with cooldown 3:
a trigger at 100 fires and records 100; a second trigger at 102 (gap 2 ≤ 3)
is suppressed; a second trigger at 104 (gap 4 > 3) fires. -/
theorem input_delay_strict_gate_witness :
    (input_delay [] "movie" 3 100).1 = true
    ∧ lookupTime (input_delay [] "movie" 3 100).2 "movie" = 100
    ∧ (input_delay (input_delay [] "movie" 3 100).2 "movie" 3 102).1 = false
    ∧ (input_delay (input_delay [] "movie" 3 100).2 "movie" 3 104).1 = true := by
  have h1 := input_delay_strict_gate [] "movie" 3 100 102
  have h2 := input_delay_strict_gate [] "movie" 3 100 104
  exact ⟨h1.1.mpr (by decide), h1.2.1 (h1.1.mpr (by decide)),
    h1.2.2.2.1 (by decide) (by decide), h2.2.2.2.2 (by decide) (by decide)⟩

/-- C9 (counterexample): the default `lastTriggerTimestamp` is `0` (Python's
`defaultdict(float)` default, i.e. the Unix epoch), not negative infinity:
the very first trigger on the fresh channel `"rfid"` with
`cooldownSeconds = 10` at `now = 7` is suppressed, so the first call does
not succeed for every `cooldownSeconds`. -/
theorem first_trigger_large_cooldown_suppressed :
    hasChannel [] "rfid" = false
    ∧ lookupTime [] "rfid" = 0
    ∧ (input_delay [] "rfid" 10 7).1 = false := by
  decide

/-- C9 (amended): for a channel with no prior trigger recorded, the default
`lastTriggerTimestamp` is `0` (the Unix epoch, from `defaultdict(float)`),
and the first `input_delay` call on it fires exactly when
`cooldownSeconds < now`; since `now` is a wall-clock epoch timestamp vastly
exceeding every configured cooldown (1 or 3 seconds), the first call fires
in practice, but not for arbitrarily large `cooldownSeconds`. -/
theorem first_trigger_default_epoch (times : TimesMap) (id : String)
    (delay now : Int) (h : hasChannel times id = false) :
    lookupTime times id = 0
    ∧ ((input_delay times id delay now).1 = true ↔ delay < now) := by
  have h0 := lookupTime_default_of_fresh times id h
  refine ⟨h0, ?_⟩
  by_cases hc : lookupTime times id + delay < now
  · rw [input_delay_pos times id delay now hc]
    simp
    omega
  · rw [input_delay_neg times id delay now hc]
    simp
    omega

/-- C9 (witness): on the fresh channel `"rfid"` with cooldown 1 the first
call at `now = 100` fires. -/
theorem first_trigger_default_epoch_witness :
    lookupTime [] "rfid" = 0
    ∧ (((input_delay [] "rfid" 1 100).1 = true) ↔ (1 : Int) < 100) :=
  first_trigger_default_epoch [] "rfid" 1 100 (by decide)

/-- C2 (confirmed): starting from an idle flag and with the `"control"`
channel's cooldown elapsed (strictly) at the gesture's firing time, a
(press, hold-threshold, release) cycle fires exactly the hold action
`stop` — the release fires nothing, for every release time `t2`, even when
the cooldown has separately elapsed at `t2` — and a
(press, release-before-threshold) cycle fires exactly the tap action
`pause`; in both cycles the flag is restored to idle. -/
theorem hold_tap_exactly_one (s : HoldState) (t1 t2 : Int)
    (hIdle : s.play_pause_was_held = false)
    (hCool : lookupTime s.times "control" + 1 < t1) :
    ((play_pause_held s t1).1 = some ControlAction.stop
      ∧ (play_pause_released (play_pause_held s t1).2 t2).1 = none
      ∧ ((play_pause_released (play_pause_held s t1).2 t2).2).play_pause_was_held = false)
    ∧ ((play_pause_released s t1).1 = some ControlAction.pause
      ∧ ((play_pause_released s t1).2).play_pause_was_held = false) := by
  have hp := input_delay_pos s.times "control" 1 t1 hCool
  refine ⟨⟨?_, ?_, ?_⟩, ?_, ?_⟩ <;>
    simp [play_pause_held, play_pause_released, hp, hIdle]

/-- C2 (witness): from the fresh state, holding at 100 fires `stop` and the
release at 101 fires nothing; from the fresh state, a plain release at 100
fires `pause`. -/
theorem hold_tap_exactly_one_witness :
    (play_pause_held ⟨[], false⟩ 100).1 = some ControlAction.stop
    ∧ (play_pause_released (play_pause_held ⟨[], false⟩ 100).2 101).1 = none
    ∧ (play_pause_released ⟨[], false⟩ 100).1 = some ControlAction.pause := by
  have h := hold_tap_exactly_one ⟨[], false⟩ 100 101 rfl (by decide)
  exact ⟨h.1.1, h.1.2.1, h.2.1⟩

/-- C10 (confirmed): when the hold-threshold event arrives while the
`"control"` cooldown has not yet elapsed, the hold action is suppressed by
the debouncer but `play_pause_was_held` is still set (it is set
unconditionally before the gate is consulted), so the subsequent release —
at any time `t2`, in particular one at which the cooldown would permit the
tap — fires nothing either: the whole gesture produces zero actions, the
timestamp dictionary is unchanged, and the flag ends cleared. -/
theorem suppressed_hold_swallows_tap (s : HoldState) (t1 t2 : Int)
    (hCool : ¬ lookupTime s.times "control" + 1 < t1) :
    (play_pause_held s t1).1 = none
    ∧ ((play_pause_held s t1).2).play_pause_was_held = true
    ∧ (play_pause_released (play_pause_held s t1).2 t2).1 = none
    ∧ ((play_pause_released (play_pause_held s t1).2 t2).2).play_pause_was_held = false
    ∧ ((play_pause_released (play_pause_held s t1).2 t2).2).times = s.times := by
  have hn := input_delay_neg s.times "control" 1 t1 hCool
  refine ⟨?_, rfl, ?_, ?_, ?_⟩ <;>
    simp [play_pause_held, play_pause_released, hn]

/-- C10 (witness): with the control channel last triggered at 10, a hold at
11 (cooldown 1 not yet strictly elapsed) fires nothing, and the release at
100 — a time at which the cooldown would permit the tap — also fires
nothing. -/
theorem suppressed_hold_swallows_tap_witness :
    (play_pause_held ⟨[("control", 10)], false⟩ 11).1 = none
    ∧ (play_pause_released (play_pause_held ⟨[("control", 10)], false⟩ 11).2 100).1 = none
    ∧ lookupTime ((play_pause_held ⟨[("control", 10)], false⟩ 11).2).times "control" + 1 < 100 := by
  have h := suppressed_hold_swallows_tap ⟨[("control", 10)], false⟩ 11 100 (by decide)
  exact ⟨h.1, h.2.2.1, by decide⟩

/-- C3 (counterexample): with `last_action_time = 0`, a timeout of 1 minute
(60 seconds) and `tick_start = 60`, the elapsed time equals the timeout
(`now - lastActionTimestamp ≥ inactivityTimeoutSeconds` holds), so the
claim says the queue is cleared; the source test
`last_action_time + inactive_timeout*60 < tick_start` is strict and the
check leaves the whole state — queue, loop mode and timestamp —
unchanged. -/
theorem inactivity_exact_timeout_not_fired :
    (60 : Int) - (0 : Int) ≥ 1 * 60
    ∧ inactivity_check ⟨0, ["m"], 1⟩ 1 60 = ⟨0, ["m"], 1⟩ := by
  decide

/-- C3 (amended): the tick's inactivity check fires exactly when
`now - lastActionTimestamp` strictly exceeds `inactivityTimeoutSeconds`
(`= inactive_timeout * 60`); on firing it clears the engine's queue,
disables loop mode and resets `last_action_time = now`, so a following
tick at any `now2 ≤ now + inactive_timeout * 60` does not re-fire; when
the test fails the state is left entirely unchanged. -/
theorem inactivity_timeout_strict (s : SessionState) (T now now2 : Int) :
    (s.last_action_time + T * 60 < now →
      inactivity_check s T now =
        { last_action_time := now, media_list := [], playback_mode := 0 })
    ∧ (s.last_action_time + T * 60 < now → now2 ≤ now + T * 60 →
      inactivity_check (inactivity_check s T now) T now2
        = inactivity_check s T now)
    ∧ (¬ s.last_action_time + T * 60 < now → inactivity_check s T now = s) := by
  refine ⟨fun h => by simp [inactivity_check, h], fun h h2 => ?_,
    fun h => by simp [inactivity_check, h]⟩
  have h3 : inactivity_check s T now =
      ({ last_action_time := now, media_list := [], playback_mode := 0 } : SessionState) := by
    simp [inactivity_check, h]
  rw [h3]
  simp only [inactivity_check]
  rw [if_neg (by simp; omega)]

/-- C3 (witness): from `last_action_time = 0` with a 1-minute timeout, the
tick at 61 fires and resets the state; the following tick at 62 leaves the
reset state unchanged. -/
theorem inactivity_timeout_strict_witness :
    inactivity_check ⟨0, ["m"], 1⟩ 1 61 = ⟨61, [], 0⟩
    ∧ inactivity_check (inactivity_check ⟨0, ["m"], 1⟩ 1 61) 1 62
      = inactivity_check ⟨0, ["m"], 1⟩ 1 61 := by
  have h := inactivity_timeout_strict ⟨0, ["m"], 1⟩ 1 61 62
  exact ⟨h.1 (by decide), h.2.1 (by decide) (by decide)⟩

/-- C4 (counterexample): the `try` block of `create_media_list` catches
exactly `FileNotFoundError`; a directory that exists but is unreadable
(`os.listdir` raising `PermissionError`) makes `create_media_list`
propagate the error to its caller instead of returning an empty
playlist. -/
theorem create_media_list_permission_error_propagates :
    create_media_list "/media/usb/b1" (Except.error OsError.permissionDenied) false id
      = Except.error OsError.permissionDenied
    ∧ create_media_list "/media/usb/b1" (Except.error OsError.permissionDenied) false id
      ≠ Except.ok [] := by
  exact ⟨rfl, by simp [create_media_list]⟩

/-- C4 (amended): for every missing directory (`os.listdir` raising
`FileNotFoundError`), `create_media_list` logs a warning and returns an
empty playlist rather than propagating the error; failures of any other
kind (e.g. an unreadable directory's `PermissionError`) are not caught and
propagate to the caller. -/
theorem create_media_list_missing_dir_empty (path : String) (shuffle : Bool)
    (perm : List String → List String) :
    create_media_list path (Except.error OsError.fileNotFound) shuffle perm
      = Except.ok [] := rfl

/-- C5 (counterexample): `b1` and `b2` are distinct physical buttons, yet a
trigger on `b1` at time 100 (which fires) suppresses a trigger on `b2` at
time 101, because all six movie buttons share the single channel
`"movie"` with cooldown 3 — refuting "each individual physical button is
its own debouncing channel". -/
theorem different_buttons_share_cooldown :
    (press_button [] "b1" 100).1 = true
    ∧ (press_button (press_button [] "b1" 100).2 "b2" 101).1 = false := by
  decide

/-- C5 (amended): the debouncing channels are per input group, not per
physical button: the six movie buttons all share channel `"movie"`
(cooldown 3), the fast-forward/rewind/play-pause buttons share channel
`"control"` (cooldown 1), and the RFID reader has its own channel
`"rfid"` (cooldown 1); a trigger within one group suppresses other buttons
of the same group during the cooldown, while a trigger on one channel
never changes a different channel's timestamp. -/
theorem input_channel_groups (times : TimesMap) (now : Int) (c : String) :
    (∀ id delay, id ≠ c →
      lookupTime (input_delay times id delay now).2 c = lookupTime times c)
    ∧ input_channel "b1" = some ("movie", 3)
    ∧ input_channel "b2" = some ("movie", 3)
    ∧ input_channel "b3" = some ("movie", 3)
    ∧ input_channel "b4" = some ("movie", 3)
    ∧ input_channel "b5" = some ("movie", 3)
    ∧ input_channel "b6" = some ("movie", 3)
    ∧ input_channel "fast_forward" = some ("control", 1)
    ∧ input_channel "rewind" = some ("control", 1)
    ∧ input_channel "pause" = some ("control", 1)
    ∧ input_channel "rfid" = some ("rfid", 1) := by
  refine ⟨fun id delay hne => ?_, rfl, rfl, rfl, rfl, rfl, rfl, rfl, rfl, rfl, rfl⟩
  by_cases h : lookupTime times id + delay < now
  · rw [input_delay_pos times id delay now h]
    exact lookupTime_setTime_other times id c now hne
  · rw [input_delay_neg times id delay now h]

/-- C5 (witness): a fired trigger on channel `"movie"` at time 100 leaves
channel `"control"`'s timestamp at its default. -/
theorem input_channel_groups_witness :
    lookupTime (input_delay [] "movie" 3 100).2 "control"
      = lookupTime [] "control" :=
  (input_channel_groups [] 100 "control").1 "movie" 3 (by decide)

/-- C6 (confirmed, spec-modelled): for every scan outcome, the RFID section
of a tick never lets an exception escape (the session is not terminated),
and on a hardware-read error it logs the warning, skips the RFID handling
for that cycle (no folder is played) and leaves the input-times dictionary
unchanged. -/
theorem rfid_read_error_handled (scan : Except PyError (Bool × String))
    (times : TimesMap) (now : Int) :
    (∃ r, rfid_tick scan times now = Except.ok r)
    ∧ rfid_tick (Except.error PyError.typeError) times now
      = Except.ok (none, times, true) := by
  refine ⟨?_, rfl⟩
  match scan with
  | Except.error PyError.typeError => exact ⟨_, rfl⟩
  | Except.ok (scanned, folder) =>
    cases scanned <;> simp [rfid_tick]

/-- C7 (confirmed): on the listing `["a.mp4", "b.txt", "c.mkv"]`, exactly
`a.mp4` and `c.mkv` are kept, in listing order, and
`create_media_list` with `shuffle = false` returns them joined onto the
directory path; in general an entry is kept exactly when its name contains
some recognized-format marker as a substring, the match is case-sensitive
(`A.MP4` is rejected, `a.mp4` accepted), and the kept entries appear in
listing order. -/
theorem build_b1_scenario :
    (["a.mp4", "b.txt", "c.mkv"].filter fun x => is_movie_format x)
      = ["a.mp4", "c.mkv"]
    ∧ create_media_list "/media/usb/b1" (Except.ok ["a.mp4", "b.txt", "c.mkv"]) false id
      = Except.ok ["/media/usb/b1/a.mp4", "/media/usb/b1/c.mkv"]
    ∧ is_movie_format "A.MP4" = false
    ∧ is_movie_format "a.mp4" = true
    ∧ (∀ (path : String) (entries : List String) (perm : List String → List String),
      create_media_list path (Except.ok entries) false perm
        = Except.ok ((entries.filter fun x => is_movie_format x).map
            (fun m => os_path_join path m))) := by
  refine ⟨by decide, rfl, by decide, by decide, fun path entries perm => rfl⟩

/-- C8 (confirmed): `fast_forward` reads the engine position and seeks to
it plus `seconds * 1000` milliseconds, `rewind` to it minus
`seconds * 1000`, with no clamping at this layer (positions are unbounded
integers here); with the engine position otherwise unchanged between the
two calls, `fast_forward s` followed by `rewind s` restores the reported
position exactly — in particular to within one engine tick of the
original. -/
theorem fast_forward_rewind_round_trip (p : MediaPlayer) (s : Int) :
    get_time (rewind (fast_forward p s) s) = get_time p
    ∧ get_time (fast_forward p s) = get_time p + s * 1000
    ∧ get_time (rewind p s) = get_time p - s * 1000 := by
  refine ⟨?_, rfl, rfl⟩
  simp [fast_forward, rewind, get_time, set_time]
